import Mathlib

/-!
Shallow embedding of the attendance-tracking backend (src/main.py,
src/app/models.py, src/app/schemas.py) and proofs about its request
handlers.

The relational store is modelled as four in-memory tables (lists of rows)
plus one autoincrement counter per table.  Each request handler from
src/main.py becomes a pure Lean function: read-only handlers return
`Except HTTPException result`, mutating handlers return
`Except HTTPException result × DB` where the returned `DB` is the store
after the request (unchanged whenever the handler raises).  Timestamps
(`datetime.utcnow`, dates) are modelled as natural numbers / integers; a
`now` parameter stands for the clock where the code reads it.
-/

namespace Mgmt

/-- Error raised by a handler, mirroring fastapi.HTTPException with its
status code and detail message. -/
structure HTTPException where
  status_code : Nat
  detail : String
deriving DecidableEq, Repr

/-- Row of table personas (src/app/models.py, class Persona). -/
structure Persona where
  id : Nat
  rut : String
  apellidos : String
  nombres : String
deriving DecidableEq, Repr

/-- Row of table asuntos (src/app/models.py, class Asunto). -/
structure Asunto where
  id : Nat
  nombre : String
  tipo : String
  descripcion : Option String
  coordinadora : String
  lugar : String
  created_at : Nat
deriving DecidableEq, Repr

/-- Row of table asunto_instancias (src/app/models.py, class AsuntoInstancia).
The date column fecha is modelled as an integer so that the descending
order of the history endpoint is meaningful. -/
structure AsuntoInstancia where
  id : Nat
  asunto_id : Nat
  fecha : Int
  lugar : Option String
  coordinadora : Option String
  observaciones : Option String
  created_at : Nat
deriving DecidableEq, Repr

/-- Row of table asistencia (src/app/models.py, class Asistencia). -/
structure Asistencia where
  id : Nat
  persona_id : Nat
  asunto_instancia_id : Nat
  asistio : Bool
  fecha_marcado : Option Nat
  updated_at : Nat
deriving DecidableEq, Repr

/-- The whole relational store: one list of rows per table plus the
autoincrement counter of each table's primary key. -/
structure DB where
  personas : List Persona
  asuntos : List Asunto
  instancias : List AsuntoInstancia
  asistencias : List Asistencia
  nextPersonaId : Nat
  nextAsuntoId : Nat
  nextInstanciaId : Nat
  nextAsistenciaId : Nat
deriving DecidableEq, Repr

/-- Empty store, as produced by the startup schema creation. -/
def initDB : DB :=
  { personas := [], asuntos := [], instancias := [], asistencias := [],
    nextPersonaId := 1, nextAsuntoId := 1, nextInstanciaId := 1,
    nextAsistenciaId := 1 }

/-! Payload schemas (src/app/schemas.py).  A field of an update schema is
`none` when the field is absent from the request payload.  For
PersonaUpdate the handler tests each field with `is not None`, so an
explicit JSON null behaves exactly like an absent field and one Option
layer suffices.  For AsuntoUpdate / AsuntoInstanciaUpdate the handler
applies `dict(exclude_unset=True)`; fields that are nullable in the
corresponding table get two Option layers (outer: present in the payload,
inner: the nullable value), while non-nullable columns carry the values
the storage engine accepts. -/

/-- Schema PersonaCreate. -/
structure PersonaCreate where
  rut : String
  apellidos : String
  nombres : String
deriving DecidableEq, Repr

/-- Schema PersonaUpdate; every field optional. -/
structure PersonaUpdate where
  rut : Option String := none
  apellidos : Option String := none
  nombres : Option String := none
deriving DecidableEq, Repr

/-- Schema AsuntoCreate. -/
structure AsuntoCreate where
  nombre : String
  tipo : String
  descripcion : Option String := none
  coordinadora : String
  lugar : String
deriving DecidableEq, Repr

/-- Schema AsuntoUpdate under exclude_unset semantics. -/
structure AsuntoUpdate where
  nombre : Option String := none
  tipo : Option String := none
  descripcion : Option (Option String) := none
  coordinadora : Option String := none
  lugar : Option String := none
deriving DecidableEq, Repr

/-- Schema AsuntoInstanciaCreate.  It has no id field and no way to omit
asunto_id; lugar, coordinadora and observaciones are nullable. -/
structure AsuntoInstanciaCreate where
  asunto_id : Nat
  fecha : Int
  lugar : Option String := none
  coordinadora : Option String := none
  observaciones : Option String := none
deriving DecidableEq, Repr

/-- Schema AsuntoInstanciaUpdate under exclude_unset semantics; note the
schema has no asunto_id field, so the owning activity reference can never
be changed by an update. -/
structure AsuntoInstanciaUpdate where
  fecha : Option Int := none
  lugar : Option (Option String) := none
  coordinadora : Option (Option String) := none
  observaciones : Option (Option String) := none
deriving DecidableEq, Repr

/-- Schema AsistenciaCreate; asistio defaults to false when omitted from
the payload (pydantic default in AsistenciaBase). -/
structure AsistenciaCreate where
  persona_id : Nat
  asunto_instancia_id : Nat
  asistio : Bool := false
deriving DecidableEq, Repr

/-- Schema AsistenciaUpdate; the handler only ever reads asistio, the
fecha_marcado field of the payload is ignored. -/
structure AsistenciaUpdate where
  asistio : Bool
  fecha_marcado : Option Nat := none
deriving DecidableEq, Repr

/-- Untyped payload of POST /instancias/<instancia_id>/registrar:
`data.get("persona_id")` and `data.get("asistio", False)`. -/
structure RegistrarData where
  persona_id : Option Nat := none
  asistio : Option Bool := none
deriving DecidableEq, Repr

/-- Replace the first element satisfying p by its image under f; models
mutating the single ORM object returned by scalar_one_or_none and
committing. -/
def updateFirst (p : α → Bool) (f : α → α) : List α → List α
  | [] => []
  | x :: xs => if p x then f x :: xs else x :: updateFirst p f xs

/-- Python `x or y` on an Optional[str] x: both None and the empty string
are falsy, so they fall through to y. -/
def pyOr (x : Option String) (y : String) : String :=
  match x with
  | some s => if s = "" then y else s
  | none => y

/-! Request handlers (src/main.py).  Each one mirrors the corresponding
endpoint function line by line: the same existence / uniqueness checks in
the same order, the same HTTP status codes and detail strings, the same
row construction. -/

/-- Handler create_persona (POST /personas/, main.py:81-99): reject with
400 when the rut already exists, otherwise insert and return the row. -/
def create_persona (persona : PersonaCreate) (db : DB) :
    Except HTTPException Persona × DB :=
  match db.personas.find? (fun p => p.rut == persona.rut) with
  | some _ => (.error ⟨400, "El RUT ya existe"⟩, db)
  | none =>
    let db_persona : Persona :=
      { id := db.nextPersonaId, rut := persona.rut,
        apellidos := persona.apellidos, nombres := persona.nombres }
    (.ok db_persona,
     { db with personas := db.personas ++ [db_persona],
               nextPersonaId := db.nextPersonaId + 1 })

/-- Handler update_persona (PUT /personas/<persona_id>,
main.py:101-125): 404 when missing; each payload field is applied only
when it is not None. -/
def update_persona (persona_id : Nat) (persona_update : PersonaUpdate)
    (db : DB) : Except HTTPException Persona × DB :=
  match db.personas.find? (fun p => p.id == persona_id) with
  | none => (.error ⟨404, "Persona no encontrada"⟩, db)
  | some db_persona =>
    let updated : Persona :=
      { db_persona with
        rut := persona_update.rut.getD db_persona.rut,
        apellidos := persona_update.apellidos.getD db_persona.apellidos,
        nombres := persona_update.nombres.getD db_persona.nombres }
    (.ok updated,
     { db with personas :=
        updateFirst (fun p => p.id == persona_id) (fun _ => updated) db.personas })

/-- Handler delete_persona (DELETE /personas/<persona_id>,
main.py:128-140): 404 when missing, otherwise remove the row.  No cascade
touches asistencia rows referencing the person. -/
def delete_persona (persona_id : Nat) (db : DB) :
    Except HTTPException Unit × DB :=
  match db.personas.find? (fun p => p.id == persona_id) with
  | none => (.error ⟨404, "Persona no encontrada"⟩, db)
  | some _ =>
    (.ok (), { db with personas := db.personas.eraseP (fun p => p.id == persona_id) })

/-- Handler create_asunto (POST /asuntos/, main.py:182-197): reject with
400 when the nombre already exists, otherwise insert. -/
def create_asunto (asunto : AsuntoCreate) (now : Nat) (db : DB) :
    Except HTTPException Asunto × DB :=
  match db.asuntos.find? (fun a => a.nombre == asunto.nombre) with
  | some _ => (.error ⟨400, "El nombre del asunto ya existe"⟩, db)
  | none =>
    let db_asunto : Asunto :=
      { id := db.nextAsuntoId, nombre := asunto.nombre, tipo := asunto.tipo,
        descripcion := asunto.descripcion, coordinadora := asunto.coordinadora,
        lugar := asunto.lugar, created_at := now }
    (.ok db_asunto,
     { db with asuntos := db.asuntos ++ [db_asunto],
               nextAsuntoId := db.nextAsuntoId + 1 })

/-- Handler update_asunto (PUT /asuntos/<asunto_id>, main.py:199-215):
404 when missing; setattr is performed for exactly the payload fields
present after dict(exclude_unset=True). -/
def update_asunto (asunto_id : Nat) (asunto_update : AsuntoUpdate)
    (db : DB) : Except HTTPException Asunto × DB :=
  match db.asuntos.find? (fun a => a.id == asunto_id) with
  | none => (.error ⟨404, "Asunto no encontrado"⟩, db)
  | some db_asunto =>
    let updated : Asunto :=
      { db_asunto with
        nombre := asunto_update.nombre.getD db_asunto.nombre,
        tipo := asunto_update.tipo.getD db_asunto.tipo,
        descripcion := asunto_update.descripcion.getD db_asunto.descripcion,
        coordinadora := asunto_update.coordinadora.getD db_asunto.coordinadora,
        lugar := asunto_update.lugar.getD db_asunto.lugar }
    (.ok updated,
     { db with asuntos :=
        updateFirst (fun a => a.id == asunto_id) (fun _ => updated) db.asuntos })

/-- Handler delete_asunto (DELETE /asuntos/<asunto_id>,
main.py:217-227): 404 when missing, otherwise remove; instancias owned by
the asunto are not touched. -/
def delete_asunto (asunto_id : Nat) (db : DB) :
    Except HTTPException Unit × DB :=
  match db.asuntos.find? (fun a => a.id == asunto_id) with
  | none => (.error ⟨404, "Asunto no encontrado"⟩, db)
  | some _ =>
    (.ok (), { db with asuntos := db.asuntos.eraseP (fun a => a.id == asunto_id) })

/-- Count of asistencia rows referencing an instancia
(main.py:246-248 and 269-271). -/
def countRegistrados (instancia_id : Nat) (db : DB) : Nat :=
  (db.asistencias.filter (fun a => a.asunto_instancia_id == instancia_id)).length

/-- Count of asistencia rows referencing an instancia with asistio = true
(main.py:249-253 and 272-276). -/
def countPresentes (instancia_id : Nat) (db : DB) : Nat :=
  (db.asistencias.filter
    (fun a => a.asunto_instancia_id == instancia_id && a.asistio)).length

/-- Response shape AsuntoInstanciaDetailResponse: the instancia enriched
with the two live aggregates. -/
structure AsuntoInstanciaDetail where
  instancia : AsuntoInstancia
  registrados : Nat
  presentes : Nat
deriving DecidableEq, Repr

/-- Enrichment of one instancia with its live counts. -/
def instanciaDetail (instancia : AsuntoInstancia) (db : DB) :
    AsuntoInstanciaDetail :=
  { instancia := instancia,
    registrados := countRegistrados instancia.id db,
    presentes := countPresentes instancia.id db }

/-- Handler get_instancias_por_asunto (GET /asuntos/<asunto_id>/instancias/,
main.py:232-257): select the instancias of the asunto; only when that
result set is empty is the asunto looked up, raising 404 exactly when it
does not exist; each returned instancia is enriched with its counts. -/
def get_instancias_por_asunto (asunto_id : Nat) (db : DB) :
    Except HTTPException (List AsuntoInstanciaDetail) :=
  let instancias := db.instancias.filter (fun i => i.asunto_id == asunto_id)
  if instancias.isEmpty && (db.asuntos.find? (fun a => a.id == asunto_id)).isNone then
    .error ⟨404, "Asunto no encontrado"⟩
  else
    .ok (instancias.map (fun i => instanciaDetail i db))

/-- Handler get_instancia (GET /instancias/<instancia_id>,
main.py:259-280): 404 when missing, otherwise the instancia enriched with
its counts. -/
def get_instancia (instancia_id : Nat) (db : DB) :
    Except HTTPException AsuntoInstanciaDetail :=
  match db.instancias.find? (fun i => i.id == instancia_id) with
  | none => .error ⟨404, "Instancia no encontrada"⟩
  | some instancia => .ok (instanciaDetail instancia db)

/-- Handler create_instancia (POST /instancias/, main.py:282-295): 404
when the owning asunto does not exist, otherwise insert. -/
def create_instancia (instancia : AsuntoInstanciaCreate) (now : Nat) (db : DB) :
    Except HTTPException AsuntoInstancia × DB :=
  match db.asuntos.find? (fun a => a.id == instancia.asunto_id) with
  | none => (.error ⟨404, "Asunto no encontrado"⟩, db)
  | some _ =>
    let db_instancia : AsuntoInstancia :=
      { id := db.nextInstanciaId, asunto_id := instancia.asunto_id,
        fecha := instancia.fecha, lugar := instancia.lugar,
        coordinadora := instancia.coordinadora,
        observaciones := instancia.observaciones, created_at := now }
    (.ok db_instancia,
     { db with instancias := db.instancias ++ [db_instancia],
               nextInstanciaId := db.nextInstanciaId + 1 })

/-- Handler update_instancia (PUT /instancias/<instancia_id>,
main.py:297-313): 404 when missing; setattr for exactly the payload
fields present after dict(exclude_unset=True). -/
def update_instancia (instancia_id : Nat)
    (instancia_update : AsuntoInstanciaUpdate) (db : DB) :
    Except HTTPException AsuntoInstancia × DB :=
  match db.instancias.find? (fun i => i.id == instancia_id) with
  | none => (.error ⟨404, "Instancia no encontrada"⟩, db)
  | some db_instancia =>
    let updated : AsuntoInstancia :=
      { db_instancia with
        fecha := instancia_update.fecha.getD db_instancia.fecha,
        lugar := instancia_update.lugar.getD db_instancia.lugar,
        coordinadora := instancia_update.coordinadora.getD db_instancia.coordinadora,
        observaciones := instancia_update.observaciones.getD db_instancia.observaciones }
    (.ok updated,
     { db with instancias :=
        updateFirst (fun i => i.id == instancia_id) (fun _ => updated) db.instancias })

/-- Handler delete_instancia (DELETE /instancias/<instancia_id>,
main.py:315-325): 404 when missing, otherwise remove; asistencia rows
referencing the instancia are not touched. -/
def delete_instancia (instancia_id : Nat) (db : DB) :
    Except HTTPException Unit × DB :=
  match db.instancias.find? (fun i => i.id == instancia_id) with
  | none => (.error ⟨404, "Instancia no encontrada"⟩, db)
  | some _ =>
    (.ok (), { db with instancias := db.instancias.eraseP (fun i => i.id == instancia_id) })

/-- Row of the response of the attendance-history endpoint
(main.py:375-382): a dict built from one asistencia joined with its
instancia and asunto. -/
structure HistoriaRow where
  id : Nat
  asunto : String
  fecha : Int
  asistio : Bool
  lugar : String
  coordinadora : String
deriving DecidableEq, Repr

/-- Shape of one history row (main.py:375-382): lugar and coordinadora
use Python `or`, so the asunto value is used when the instancia override
is None or the empty string. -/
def historiaRow (asistencia : Asistencia) (instancia : AsuntoInstancia)
    (asunto : Asunto) : HistoriaRow :=
  { id := asistencia.id, asunto := asunto.nombre, fecha := instancia.fecha,
    asistio := asistencia.asistio,
    lugar := pyOr instancia.lugar asunto.lugar,
    coordinadora := pyOr instancia.coordinadora asunto.coordinadora }

/-- The inner join of main.py:364-370: each asistencia of the persona
paired with its instancia and that instancia's asunto; rows whose foreign
key has no matching row drop out, as in an SQL inner join. -/
def joinAsistencia (db : DB) (persona_id : Nat) :
    List (Asistencia × AsuntoInstancia × Asunto) :=
  db.asistencias.filterMap (fun a =>
    if a.persona_id == persona_id then
      match db.instancias.find? (fun i => i.id == a.asunto_instancia_id) with
      | none => none
      | some i =>
        match db.asuntos.find? (fun s => s.id == i.asunto_id) with
        | none => none
        | some s => some (a, i, s)
    else none)

/-- Comparison used to model ORDER BY AsuntoInstancia.fecha DESC: x comes
before y when x's instancia date is at least y's. -/
def fechaGe (x y : Asistencia × AsuntoInstancia × Asunto) : Prop :=
  y.2.1.fecha ≤ x.2.1.fecha

instance : DecidableRel fechaGe := fun x y => Int.decLe y.2.1.fecha x.2.1.fecha

instance : IsTotal (Asistencia × AsuntoInstancia × Asunto) fechaGe :=
  ⟨fun a b => Int.le_total b.2.1.fecha a.2.1.fecha⟩

instance : IsTrans (Asistencia × AsuntoInstancia × Asunto) fechaGe :=
  ⟨fun _ _ _ hab hbc => le_trans hbc hab⟩

/-- Handler get_asistencia_por_persona
(GET /personas/<persona_id>/asistencia/, main.py:355-384): 404 when
the persona does not exist; otherwise the joined rows ordered by
instancia date descending, shaped by historiaRow. -/
def get_asistencia_por_persona (persona_id : Nat) (db : DB) :
    Except HTTPException (List HistoriaRow) :=
  match db.personas.find? (fun p => p.id == persona_id) with
  | none => .error ⟨404, "Persona no encontrada"⟩
  | some _ =>
    .ok (((joinAsistencia db persona_id).insertionSort fechaGe).map
      (fun r => historiaRow r.1 r.2.1 r.2.2))

/-- Handler create_asistencia (POST /asistencia/, main.py:386-414): 404
when the persona is missing, then 404 when the instancia is missing, then
400 when an asistencia for the same (persona, instancia) pair exists,
otherwise insert with fecha_marcado unset. -/
def create_asistencia (asistencia : AsistenciaCreate) (now : Nat) (db : DB) :
    Except HTTPException Asistencia × DB :=
  if (db.personas.find? (fun p => p.id == asistencia.persona_id)).isNone then
    (.error ⟨404, "Persona no encontrada"⟩, db)
  else if (db.instancias.find?
      (fun i => i.id == asistencia.asunto_instancia_id)).isNone then
    (.error ⟨404, "Instancia no encontrada"⟩, db)
  else if (db.asistencias.find? (fun a =>
      a.persona_id == asistencia.persona_id &&
      a.asunto_instancia_id == asistencia.asunto_instancia_id)).isSome then
    (.error ⟨400, "Esta persona ya está registrada en esta instancia"⟩, db)
  else
    let db_asistencia : Asistencia :=
      { id := db.nextAsistenciaId, persona_id := asistencia.persona_id,
        asunto_instancia_id := asistencia.asunto_instancia_id,
        asistio := asistencia.asistio, fecha_marcado := none,
        updated_at := now }
    (.ok db_asistencia,
     { db with asistencias := db.asistencias ++ [db_asistencia],
               nextAsistenciaId := db.nextAsistenciaId + 1 })

/-- Handler update_asistencia (PUT /asistencia/<asistencia_id>,
main.py:416-432): 404 when missing; otherwise the asistio flag is set
from the payload and fecha_marcado is stamped with datetime.utcnow();
updated_at follows through the column's onupdate hook. -/
def update_asistencia (asistencia_id : Nat)
    (asistencia_update : AsistenciaUpdate) (now : Nat) (db : DB) :
    Except HTTPException Asistencia × DB :=
  match db.asistencias.find? (fun a => a.id == asistencia_id) with
  | none => (.error ⟨404, "Registro de asistencia no encontrado"⟩, db)
  | some db_asistencia =>
    let updated : Asistencia :=
      { db_asistencia with
        asistio := asistencia_update.asistio,
        fecha_marcado := some now,
        updated_at := now }
    (.ok updated,
     { db with asistencias :=
        updateFirst (fun a => a.id == asistencia_id) (fun _ => updated) db.asistencias })

/-- Handler delete_asistencia (DELETE /asistencia/<asistencia_id>,
main.py:434-444): 404 when missing, otherwise remove the row. -/
def delete_asistencia (asistencia_id : Nat) (db : DB) :
    Except HTTPException Unit × DB :=
  match db.asistencias.find? (fun a => a.id == asistencia_id) with
  | none => (.error ⟨404, "Registro de asistencia no encontrado"⟩, db)
  | some _ =>
    (.ok (), { db with asistencias := db.asistencias.eraseP (fun a => a.id == asistencia_id) })

/-- Response of the convenience registration endpoint: either the
informational dict with key "message" returned when the pair already
exists, or the dict with keys "id", "persona_id", "asistio" of a fresh
registration. -/
inductive RegistrarResult where
  | message (text : String)
  | created (id : Nat) (persona_id : Nat) (asistio : Bool)
deriving DecidableEq, Repr

/-- Handler registrar_persona_instancia
(POST /instancias/<instancia_id>/registrar, main.py:446-485).
Python's `if not persona_id` is falsy for both a missing key (None) and
the value 0, hence the getD 0 test.  The checks run in source order:
missing persona_id (400), missing instancia (404), missing persona (404),
existing pair (informational message, store untouched), else insert with
asistio defaulting to false. -/
def registrar_persona_instancia (instancia_id : Nat) (data : RegistrarData)
    (now : Nat) (db : DB) : Except HTTPException RegistrarResult × DB :=
  let asistio := data.asistio.getD false
  if data.persona_id.getD 0 == 0 then
    (.error ⟨400, "persona_id es requerido"⟩, db)
  else
    let persona_id := data.persona_id.getD 0
    if (db.instancias.find? (fun i => i.id == instancia_id)).isNone then
      (.error ⟨404, "Instancia no encontrada"⟩, db)
    else if (db.personas.find? (fun p => p.id == persona_id)).isNone then
      (.error ⟨404, "Persona no encontrada"⟩, db)
    else if (db.asistencias.find? (fun a =>
        a.persona_id == persona_id &&
        a.asunto_instancia_id == instancia_id)).isSome then
      (.ok (.message "Persona ya está registrada"), db)
    else
      let db_asistencia : Asistencia :=
        { id := db.nextAsistenciaId, persona_id := persona_id,
          asunto_instancia_id := instancia_id, asistio := asistio,
          fecha_marcado := none, updated_at := now }
      (.ok (.created db_asistencia.id persona_id asistio),
       { db with asistencias := db.asistencias ++ [db_asistencia],
                 nextAsistenciaId := db.nextAsistenciaId + 1 })

/-- Success status of the routes created with
status_code=status.HTTP_201_CREATED (main.py:81, 182, 282, 386, 446). -/
def createdStatus : Nat := 201

/-- One mutating API request, with the clock value observed where the
handler reads it. -/
inductive Op where
  | createPersona (p : PersonaCreate)
  | updatePersona (id : Nat) (u : PersonaUpdate)
  | deletePersona (id : Nat)
  | createAsunto (a : AsuntoCreate) (now : Nat)
  | updateAsunto (id : Nat) (u : AsuntoUpdate)
  | deleteAsunto (id : Nat)
  | createInstancia (i : AsuntoInstanciaCreate) (now : Nat)
  | updateInstancia (id : Nat) (u : AsuntoInstanciaUpdate)
  | deleteInstancia (id : Nat)
  | createAsistencia (a : AsistenciaCreate) (now : Nat)
  | updateAsistencia (id : Nat) (u : AsistenciaUpdate) (now : Nat)
  | deleteAsistencia (id : Nat)
  | registrar (instancia_id : Nat) (d : RegistrarData) (now : Nat)

/-- State reached after one sequentially executed request (read-only
endpoints do not change the store and need no constructor). -/
def applyOp (op : Op) (db : DB) : DB :=
  match op with
  | .createPersona p => (create_persona p db).2
  | .updatePersona id u => (update_persona id u db).2
  | .deletePersona id => (delete_persona id db).2
  | .createAsunto a now => (create_asunto a now db).2
  | .updateAsunto id u => (update_asunto id u db).2
  | .deleteAsunto id => (delete_asunto id db).2
  | .createInstancia i now => (create_instancia i now db).2
  | .updateInstancia id u => (update_instancia id u db).2
  | .deleteInstancia id => (delete_instancia id db).2
  | .createAsistencia a now => (create_asistencia a now db).2
  | .updateAsistencia id u now => (update_asistencia id u now db).2
  | .deleteAsistencia id => (delete_asistencia id db).2
  | .registrar iid d now => (registrar_persona_instancia iid d now db).2

/-- State reached from db by a sequence of requests. -/
def execList (ops : List Op) (db : DB) : DB :=
  match ops with
  | [] => db
  | op :: rest => execList rest (applyOp op db)

/-! Derived notions used by the statements: the (person, instance) key of
an asistencia row, the uniqueness invariant the application maintains for
it, bounds tying foreign keys to the autoincrement counters, and a few
small concrete stores used to witness the theorems. -/

/-- The application-level key of an asistencia row: the referenced
persona and instancia. -/
def pairKey (a : Asistencia) : Nat × Nat := (a.persona_id, a.asunto_instancia_id)

/-- At most one asistencia row per (persona, instancia) pair. -/
def pairDistinct (l : List Asistencia) : Prop :=
  l.Pairwise (fun a b => pairKey a ≠ pairKey b)

/-- Every stored instancia id is below the instancia autoincrement
counter, so a freshly assigned id never collides. -/
def instIdsBounded (db : DB) : Prop :=
  ∀ i ∈ db.instancias, i.id < db.nextInstanciaId

/-- Every asistencia foreign key into asunto_instancias is below the
instancia autoincrement counter. -/
def asisRefsBounded (db : DB) : Prop :=
  ∀ a ∈ db.asistencias, a.asunto_instancia_id < db.nextInstanciaId

/-- Invariant maintained by every sequentially executed request. -/
def Inv (db : DB) : Prop :=
  pairDistinct db.asistencias ∧ instIdsBounded db ∧ asisRefsBounded db

/-- Concrete asunto used in witnesses. -/
def demoAsunto : Asunto :=
  { id := 1, nombre := "Taller A", tipo := "taller", descripcion := none,
    coordinadora := "Ana", lugar := "Sala 1", created_at := 0 }

/-- Concrete instancia without overrides used in witnesses. -/
def demoInstancia : AsuntoInstancia :=
  { id := 1, asunto_id := 1, fecha := 20240110, lugar := none,
    coordinadora := none, observaciones := none, created_at := 0 }

/-- Concrete persona used in witnesses. -/
def demoPersona : Persona :=
  { id := 1, rut := "1-9", apellidos := "Perez", nombres := "Juan" }

/-- Concrete asistencia row used in witnesses. -/
def demoAsistencia : Asistencia :=
  { id := 1, persona_id := 1, asunto_instancia_id := 1, asistio := false,
    fecha_marcado := none, updated_at := 0 }

/-- Store holding one persona, one asunto and one instancia, no
asistencia rows. -/
def demoDB : DB :=
  { personas := [demoPersona], asuntos := [demoAsunto],
    instancias := [demoInstancia], asistencias := [],
    nextPersonaId := 2, nextAsuntoId := 2, nextInstanciaId := 2,
    nextAsistenciaId := 1 }

/-- demoDB with the asistencia row for the (1, 1) pair added. -/
def demoDB2 : DB :=
  { personas := [demoPersona], asuntos := [demoAsunto],
    instancias := [demoInstancia], asistencias := [demoAsistencia],
    nextPersonaId := 2, nextAsuntoId := 2, nextInstanciaId := 2,
    nextAsistenciaId := 2 }

/-- Instancia whose lugar and coordinadora overrides are stored as the
empty string (allowed by AsuntoInstanciaUpdate, which caps the length of
lugar at 255 but has no minimum). -/
def emptyOverrideInstancia : AsuntoInstancia :=
  { id := 1, asunto_id := 1, fecha := 20240110, lugar := some "",
    coordinadora := some "", observaciones := none, created_at := 0 }

/-- Store where the single instancia carries empty-string overrides and
persona 1 has one asistencia row on it. -/
def emptyOverrideDB : DB :=
  { personas := [demoPersona], asuntos := [demoAsunto],
    instancias := [emptyOverrideInstancia], asistencias := [demoAsistencia],
    nextPersonaId := 2, nextAsuntoId := 2, nextInstanciaId := 2,
    nextAsistenciaId := 2 }

/-- Store holding only one persona. -/
def demoPersonaOnlyDB : DB :=
  { personas := [demoPersona], asuntos := [], instancias := [], asistencias := [],
    nextPersonaId := 2, nextAsuntoId := 1, nextInstanciaId := 1,
    nextAsistenciaId := 1 }

/-- Store holding one persona and one asunto that owns no instancias. -/
def demoAsuntoOnlyDB : DB :=
  { personas := [demoPersona], asuntos := [demoAsunto], instancias := [],
    asistencias := [], nextPersonaId := 2, nextAsuntoId := 2,
    nextInstanciaId := 1, nextAsistenciaId := 1 }

/-! Helper lemmas about updateFirst, pairDistinct and pyOr. -/

/-- Elements of updateFirst p f l are old elements or images under f of
old elements. -/
theorem mem_updateFirst {α} {p : α → Bool} {f : α → α} :
    ∀ {l : List α} {y}, y ∈ updateFirst p f l → y ∈ l ∨ ∃ x ∈ l, y = f x := by
  intro l
  induction l with
  | nil => intro y h; simp [updateFirst] at h
  | cons x xs ih =>
    intro y h
    simp only [updateFirst] at h
    by_cases hp : p x
    · rw [if_pos hp] at h
      rcases List.mem_cons.mp h with h1 | h1
      · exact Or.inr ⟨x, List.mem_cons_self x xs, h1⟩
      · exact Or.inl (List.mem_cons_of_mem _ h1)
    · rw [if_neg hp] at h
      rcases List.mem_cons.mp h with h1 | h1
      · exact Or.inl (h1 ▸ List.mem_cons_self x xs)
      · rcases ih h1 with h2 | ⟨z, hz, hy⟩
        · exact Or.inl (List.mem_cons_of_mem _ h2)
        · exact Or.inr ⟨z, List.mem_cons_of_mem _ hz, hy⟩

/-- updateFirst keeps the length of the list. -/
theorem length_updateFirst {α} (p : α → Bool) (f : α → α) :
    ∀ l : List α, (updateFirst p f l).length = l.length := by
  intro l
  induction l with
  | nil => rfl
  | cons x xs ih =>
    simp only [updateFirst]
    by_cases hp : p x
    · rw [if_pos hp]; simp
    · rw [if_neg hp]; simpa using ih

/-- An element not satisfying the predicate survives updateFirst. -/
theorem mem_updateFirst_of_not_pred {α} {p : α → Bool} {f : α → α} :
    ∀ {l : List α} {y}, y ∈ l → p y = false → y ∈ updateFirst p f l := by
  intro l
  induction l with
  | nil => intro y h; simp at h
  | cons x xs ih =>
    intro y h hy
    simp only [updateFirst]
    rcases List.mem_cons.mp h with h1 | h1
    · subst h1
      rw [if_neg (by simp [hy])]
      exact List.mem_cons_self _ _
    · by_cases hp : p x
      · rw [if_pos hp]; exact List.mem_cons_of_mem _ h1
      · rw [if_neg hp]; exact List.mem_cons_of_mem _ (ih h1 hy)

/-- pairDistinct survives replacing one row by a row with the same
(persona, instancia) key. -/
theorem pairDistinct_updateFirst {p : Asistencia → Bool} {f : Asistencia → Asistencia}
    (hf : ∀ x, pairKey (f x) = pairKey x) :
    ∀ {l : List Asistencia}, pairDistinct l → pairDistinct (updateFirst p f l) := by
  intro l
  induction l with
  | nil => intro h; exact h
  | cons x xs ih =>
    intro h
    rcases List.pairwise_cons.mp h with ⟨hx, hxs⟩
    simp only [pairDistinct, updateFirst]
    by_cases hp : p x
    · rw [if_pos hp]
      exact List.pairwise_cons.mpr ⟨fun y hy => by rw [hf x]; exact hx y hy, hxs⟩
    · rw [if_neg hp]
      refine List.pairwise_cons.mpr ⟨fun y hy => ?_, ih hxs⟩
      rcases mem_updateFirst hy with h1 | ⟨z, hz, hyz⟩
      · exact hx y h1
      · rw [hyz, hf z]; exact hx z hz

/-- pairDistinct survives removing rows. -/
theorem pairDistinct_eraseP {p : Asistencia → Bool} {l : List Asistencia}
    (h : pairDistinct l) : pairDistinct (l.eraseP p) :=
  h.sublist (List.eraseP_sublist l)

/-- pairDistinct survives appending one row whose key occurs nowhere. -/
theorem pairDistinct_append_singleton {l : List Asistencia} {x : Asistencia}
    (h : pairDistinct l) (hx : ∀ a ∈ l, pairKey a ≠ pairKey x) :
    pairDistinct (l ++ [x]) := by
  rw [pairDistinct, List.pairwise_append]
  refine ⟨h, List.pairwise_singleton _ _, fun a ha b hb => ?_⟩
  rcases List.mem_singleton.mp hb with rfl
  exact hx a ha

/-- When find? locates a first match a, updateFirst rewrites the list as
the unmatched head part, f a, and the untouched tail. -/
theorem updateFirst_eq_of_find? {α} {p : α → Bool} {f : α → α} :
    ∀ {l : List α} {a}, l.find? p = some a →
      ∃ l1 l2, l = l1 ++ a :: l2 ∧ (∀ x ∈ l1, p x = false) ∧
        updateFirst p f l = l1 ++ f a :: l2 := by
  intro l
  induction l with
  | nil => intro a h; simp at h
  | cons x xs ih =>
    intro a hfind
    by_cases hp : p x = true
    · rw [List.find?_cons_of_pos _ hp] at hfind
      injection hfind with ha; subst ha
      exact ⟨[], xs, rfl, by simp, by simp [updateFirst, hp]⟩
    · rw [List.find?_cons_of_neg _ hp] at hfind
      obtain ⟨l1, l2, hl, hnot, hupd⟩ := ih hfind
      refine ⟨x :: l1, l2, by rw [hl]; rfl, ?_, ?_⟩
      · intro z hz
        rcases List.mem_cons.mp hz with rfl | hz2
        · simpa using hp
        · exact hnot z hz2
      · simp only [updateFirst, if_neg hp, List.cons_append]
        rw [hupd]

/-- pairDistinct survives replacing one row by a row with the same
(persona, instancia) key. -/
theorem pairDistinct_replace {l1 l2 : List Asistencia} {a b : Asistencia}
    (hkey : pairKey b = pairKey a) (h : pairDistinct (l1 ++ a :: l2)) :
    pairDistinct (l1 ++ b :: l2) := by
  rw [pairDistinct, List.pairwise_append] at h ⊢
  obtain ⟨h1, h2, h3⟩ := h
  rcases List.pairwise_cons.mp h2 with ⟨ha, h2'⟩
  refine ⟨h1, List.pairwise_cons.mpr
    ⟨fun y hy => by rw [hkey]; exact ha y hy, h2'⟩, fun x hx y hy => ?_⟩
  rcases List.mem_cons.mp hy with rfl | hy2
  · rw [hkey]; exact h3 x hx a (List.mem_cons_self _ _)
  · exact h3 x hx y (List.mem_cons_of_mem _ hy2)

/-- pyOr returns a non-empty override unchanged. -/
theorem pyOr_some {v d : String} (h : v ≠ "") : pyOr (some v) d = v := by
  simp [pyOr, h]

/-- pyOr falls back on a falsy override (None or the empty string). -/
theorem pyOr_falsy {x : Option String} {d : String}
    (h : x = none ∨ x = some "") : pyOr x d = d := by
  rcases h with h | h <;> simp [pyOr, h]

/-! Preservation of the store invariant by every mutating request. -/

/-- Inv only depends on the asistencia rows, the instancia rows and the
instancia counter. -/
theorem Inv_congr {db db' : DB} (h : Inv db)
    (h1 : db'.asistencias = db.asistencias)
    (h2 : db'.instancias = db.instancias)
    (h3 : db'.nextInstanciaId = db.nextInstanciaId) : Inv db' := by
  obtain ⟨hp, hi, ha⟩ := h
  refine ⟨by rw [pairDistinct, h1]; exact hp, ?_, ?_⟩
  · intro i hmem
    rw [h3]
    exact hi i (h2 ▸ hmem)
  · intro a hmem
    rw [h3]
    exact ha a (h1 ▸ hmem)

/-- The invariant holds in the empty store. -/
theorem Inv_initDB : Inv initDB :=
  ⟨List.Pairwise.nil, by intro i h; simp [initDB] at h,
   by intro a h; simp [initDB] at h⟩

/-- Each mutating request preserves the invariant: the two insertion
paths check for an existing (persona, instancia) pair first, the
asistencia update keeps the pair fields, deletions only remove rows, and
freshly assigned instancia ids come from the counter. -/
theorem Inv_applyOp (op : Op) (db : DB) (h : Inv db) : Inv (applyOp op db) := by
  obtain ⟨hp, hi, ha⟩ := h
  cases op with
  | createPersona p =>
    simp only [applyOp, create_persona]
    split <;> exact Inv_congr ⟨hp, hi, ha⟩ rfl rfl rfl
  | updatePersona id u =>
    simp only [applyOp, update_persona]
    split <;> exact Inv_congr ⟨hp, hi, ha⟩ rfl rfl rfl
  | deletePersona id =>
    simp only [applyOp, delete_persona]
    split <;> exact Inv_congr ⟨hp, hi, ha⟩ rfl rfl rfl
  | createAsunto a now =>
    simp only [applyOp, create_asunto]
    split <;> exact Inv_congr ⟨hp, hi, ha⟩ rfl rfl rfl
  | updateAsunto id u =>
    simp only [applyOp, update_asunto]
    split <;> exact Inv_congr ⟨hp, hi, ha⟩ rfl rfl rfl
  | deleteAsunto id =>
    simp only [applyOp, delete_asunto]
    split <;> exact Inv_congr ⟨hp, hi, ha⟩ rfl rfl rfl
  | createInstancia i now =>
    simp only [applyOp, create_instancia]
    cases hf : db.asuntos.find? (fun a => a.id == i.asunto_id) with
    | none => exact Inv_congr ⟨hp, hi, ha⟩ rfl rfl rfl
    | some _ =>
      refine ⟨hp, ?_, ?_⟩
      · intro x hx
        rcases List.mem_append.mp hx with hx | hx
        · exact Nat.lt_succ_of_lt (hi x hx)
        · rcases List.mem_singleton.mp hx with rfl
          exact Nat.lt_succ_self _
      · intro a hmem
        exact Nat.lt_succ_of_lt (ha a hmem)
  | updateInstancia id u =>
    simp only [applyOp, update_instancia]
    cases hf : db.instancias.find? (fun i => i.id == id) with
    | none => exact Inv_congr ⟨hp, hi, ha⟩ rfl rfl rfl
    | some di =>
      refine ⟨hp, ?_, ha⟩
      intro x hx
      rcases mem_updateFirst hx with h1 | ⟨z, hz, rfl⟩
      · exact hi x h1
      · exact hi di (List.mem_of_find?_eq_some hf)
  | deleteInstancia id =>
    simp only [applyOp, delete_instancia]
    cases hf : db.instancias.find? (fun i => i.id == id) with
    | none => exact Inv_congr ⟨hp, hi, ha⟩ rfl rfl rfl
    | some _ =>
      refine ⟨hp, ?_, ha⟩
      intro x hx
      exact hi x ((List.eraseP_sublist _).subset hx)
  | createAsistencia a now =>
    simp only [applyOp, create_asistencia]
    cases hfp : db.personas.find? (fun p => p.id == a.persona_id) with
    | none => exact Inv_congr ⟨hp, hi, ha⟩ rfl rfl rfl
    | some _ =>
      cases hfi : db.instancias.find? (fun i => i.id == a.asunto_instancia_id) with
      | none => exact Inv_congr ⟨hp, hi, ha⟩ rfl rfl rfl
      | some inst =>
        cases hfa : db.asistencias.find? (fun x =>
            x.persona_id == a.persona_id &&
            x.asunto_instancia_id == a.asunto_instancia_id) with
        | some _ => exact Inv_congr ⟨hp, hi, ha⟩ rfl rfl rfl
        | none =>
          refine ⟨?_, hi, ?_⟩
          · refine pairDistinct_append_singleton hp ?_
            intro x hx hkey
            have hnot := List.find?_eq_none.mp hfa x hx
            simp only [pairKey, Prod.mk.injEq] at hkey
            simp [hkey.1, hkey.2] at hnot
          · intro x hx
            rcases List.mem_append.mp hx with hx | hx
            · exact ha x hx
            · rcases List.mem_singleton.mp hx with rfl
              have h5 : inst.id = a.asunto_instancia_id := by
                simpa using List.find?_some hfi
              exact h5 ▸ hi inst (List.mem_of_find?_eq_some hfi)
  | updateAsistencia id u now =>
    simp only [applyOp, update_asistencia]
    cases hf : db.asistencias.find? (fun a => a.id == id) with
    | none => exact Inv_congr ⟨hp, hi, ha⟩ rfl rfl rfl
    | some da =>
      obtain ⟨l1, l2, hl, hskip, hupd⟩ :=
        updateFirst_eq_of_find? (f := fun _ =>
          { da with asistio := u.asistio, fecha_marcado := some now,
                    updated_at := now }) hf
      refine ⟨?_, hi, ?_⟩
      · show pairDistinct (updateFirst (fun a => a.id == id) (fun _ =>
          { da with asistio := u.asistio, fecha_marcado := some now,
                    updated_at := now }) db.asistencias)
        rw [hupd]
        have hp2 : pairDistinct (l1 ++ da :: l2) := by rw [← hl]; exact hp
        exact pairDistinct_replace (a := da) rfl hp2
      · intro x hx
        rcases mem_updateFirst hx with h1 | ⟨z, hz, rfl⟩
        · exact ha x h1
        · exact ha da (List.mem_of_find?_eq_some hf)
  | deleteAsistencia id =>
    simp only [applyOp, delete_asistencia]
    cases hf : db.asistencias.find? (fun a => a.id == id) with
    | none => exact Inv_congr ⟨hp, hi, ha⟩ rfl rfl rfl
    | some _ =>
      refine ⟨pairDistinct_eraseP hp, hi, ?_⟩
      intro x hx
      exact ha x ((List.eraseP_sublist _).subset hx)
  | registrar iid d now =>
    simp only [applyOp, registrar_persona_instancia]
    by_cases h0 : (d.persona_id.getD 0 == 0) = true
    · rw [if_pos h0]
      exact Inv_congr ⟨hp, hi, ha⟩ rfl rfl rfl
    · rw [if_neg h0]
      cases hfi : db.instancias.find? (fun i => i.id == iid) with
      | none => exact Inv_congr ⟨hp, hi, ha⟩ rfl rfl rfl
      | some inst =>
        cases hfp : db.personas.find? (fun p => p.id == d.persona_id.getD 0) with
        | none => exact Inv_congr ⟨hp, hi, ha⟩ rfl rfl rfl
        | some _ =>
          cases hfa : db.asistencias.find? (fun a =>
              a.persona_id == d.persona_id.getD 0 &&
              a.asunto_instancia_id == iid) with
          | some _ => exact Inv_congr ⟨hp, hi, ha⟩ rfl rfl rfl
          | none =>
            refine ⟨?_, hi, ?_⟩
            · refine pairDistinct_append_singleton hp ?_
              intro x hx hkey
              have hnot := List.find?_eq_none.mp hfa x hx
              simp only [pairKey, Prod.mk.injEq] at hkey
              simp [hkey.1, hkey.2] at hnot
            · intro x hx
              rcases List.mem_append.mp hx with hx | hx
              · exact ha x hx
              · rcases List.mem_singleton.mp hx with rfl
                have h5 : inst.id = iid := by
                  simpa using List.find?_some hfi
                exact h5 ▸ hi inst (List.mem_of_find?_eq_some hfi)


/-- The invariant holds in every state reachable from the empty store. -/
theorem Inv_execList (ops : List Op) : ∀ db, Inv db → Inv (execList ops db) := by
  induction ops with
  | nil => intro db h; exact h
  | cons op rest ih =>
    intro db h
    exact ih _ (Inv_applyOp op db h)

/-! Claim theorems. -/

/-- C3: in every state reachable from the empty store by any sequence of
sequentially executed API operations there is at most one asistencia row
per (persona, instancia) pair: both insertion paths check for an existing
row with that pair before inserting, and no other operation changes the
persona or instancia reference of an asistencia row. -/
theorem C3_pair_uniqueness_reachable (ops : List Op) :
    pairDistinct (execList ops initDB).asistencias :=
  (Inv_execList ops initDB Inv_initDB).1

/-- C3 witness: the invariant at the state reached by a concrete request
sequence that exercises both insertion paths on the same pair. -/
theorem C3_witness :
    pairDistinct (execList
      [Op.createAsunto { nombre := "Taller A", tipo := "taller",
                         coordinadora := "Ana", lugar := "Sala 1" } 0,
       Op.createInstancia { asunto_id := 1, fecha := 20240110 } 0,
       Op.createPersona { rut := "1-9", apellidos := "Perez", nombres := "Juan" },
       Op.registrar 1 { persona_id := some 1 } 0,
       Op.registrar 1 { persona_id := some 1 } 1,
       Op.createAsistencia { persona_id := 1, asunto_instancia_id := 1 } 2]
      initDB).asistencias :=
  C3_pair_uniqueness_reachable
    [Op.createAsunto { nombre := "Taller A", tipo := "taller",
                       coordinadora := "Ana", lugar := "Sala 1" } 0,
     Op.createInstancia { asunto_id := 1, fecha := 20240110 } 0,
     Op.createPersona { rut := "1-9", apellidos := "Perez", nombres := "Juan" },
     Op.registrar 1 { persona_id := some 1 } 0,
     Op.registrar 1 { persona_id := some 1 } 1,
     Op.createAsistencia { persona_id := 1, asunto_instancia_id := 1 } 2]

/-- C7: starting from a state in which the unique key is absent, two
creates with the same key (two personas with one rut, or two asuntos with
one nombre) yield one 201 success carrying the assigned id and one 400
CONFLICT that leaves the store unchanged, and exactly one row with that
key exists afterwards. -/
theorem C7_duplicate_create_conflict (db : DB) (p1 p2 : PersonaCreate)
    (a1 a2 : AsuntoCreate) (t1 t2 : Nat)
    (hrut : p2.rut = p1.rut)
    (hrutAbs : db.personas.find? (fun q => q.rut == p1.rut) = none)
    (hnom : a2.nombre = a1.nombre)
    (hnomAbs : db.asuntos.find? (fun x => x.nombre == a1.nombre) = none) :
    (∃ created db1,
      create_persona p1 db = (.ok created, db1) ∧
      created.id = db.nextPersonaId ∧ created.rut = p1.rut ∧
      create_persona p2 db1 = (.error ⟨400, "El RUT ya existe"⟩, db1) ∧
      (db1.personas.filter (fun q => q.rut == p1.rut)).length = 1) ∧
    (∃ createdA db1,
      create_asunto a1 t1 db = (.ok createdA, db1) ∧
      createdA.id = db.nextAsuntoId ∧ createdA.nombre = a1.nombre ∧
      create_asunto a2 t2 db1 = (.error ⟨400, "El nombre del asunto ya existe"⟩, db1) ∧
      (db1.asuntos.filter (fun x => x.nombre == a1.nombre)).length = 1) ∧
    createdStatus = 201 := by
  have hfilp : db.personas.filter (fun q => q.rut == p1.rut) = [] := by
    rw [List.filter_eq_nil_iff]
    exact fun x hx => List.find?_eq_none.mp hrutAbs x hx
  have hfila : db.asuntos.filter (fun x => x.nombre == a1.nombre) = [] := by
    rw [List.filter_eq_nil_iff]
    exact fun x hx => List.find?_eq_none.mp hnomAbs x hx
  have h1 : create_persona p1 db =
      (.ok { id := db.nextPersonaId, rut := p1.rut, apellidos := p1.apellidos,
             nombres := p1.nombres },
       { db with
         personas := db.personas ++
           [{ id := db.nextPersonaId, rut := p1.rut, apellidos := p1.apellidos,
              nombres := p1.nombres }],
         nextPersonaId := db.nextPersonaId + 1 }) := by
    simp only [create_persona, hrutAbs]
  have h2 : create_persona p2
      { db with
        personas := db.personas ++
          [{ id := db.nextPersonaId, rut := p1.rut, apellidos := p1.apellidos,
             nombres := p1.nombres }],
        nextPersonaId := db.nextPersonaId + 1 } =
      (.error ⟨400, "El RUT ya existe"⟩,
       { db with
         personas := db.personas ++
           [{ id := db.nextPersonaId, rut := p1.rut, apellidos := p1.apellidos,
              nombres := p1.nombres }],
         nextPersonaId := db.nextPersonaId + 1 }) := by
    simp only [create_persona, hrut, List.find?_append, hrutAbs, Option.none_or,
      List.find?_cons, beq_self_eq_true]
  have h3 : ((db.personas ++
      [({ id := db.nextPersonaId, rut := p1.rut, apellidos := p1.apellidos,
          nombres := p1.nombres } : Persona)]).filter
        (fun q => q.rut == p1.rut)).length = 1 := by
    simp [List.filter_append, hfilp]
  have h4 : create_asunto a1 t1 db =
      (.ok { id := db.nextAsuntoId, nombre := a1.nombre, tipo := a1.tipo,
             descripcion := a1.descripcion, coordinadora := a1.coordinadora,
             lugar := a1.lugar, created_at := t1 },
       { db with
         asuntos := db.asuntos ++
           [{ id := db.nextAsuntoId, nombre := a1.nombre, tipo := a1.tipo,
              descripcion := a1.descripcion, coordinadora := a1.coordinadora,
              lugar := a1.lugar, created_at := t1 }],
         nextAsuntoId := db.nextAsuntoId + 1 }) := by
    simp only [create_asunto, hnomAbs]
  have h5 : create_asunto a2 t2
      { db with
        asuntos := db.asuntos ++
          [{ id := db.nextAsuntoId, nombre := a1.nombre, tipo := a1.tipo,
             descripcion := a1.descripcion, coordinadora := a1.coordinadora,
             lugar := a1.lugar, created_at := t1 }],
        nextAsuntoId := db.nextAsuntoId + 1 } =
      (.error ⟨400, "El nombre del asunto ya existe"⟩,
       { db with
         asuntos := db.asuntos ++
           [{ id := db.nextAsuntoId, nombre := a1.nombre, tipo := a1.tipo,
              descripcion := a1.descripcion, coordinadora := a1.coordinadora,
              lugar := a1.lugar, created_at := t1 }],
         nextAsuntoId := db.nextAsuntoId + 1 }) := by
    simp only [create_asunto, hnom, List.find?_append, hnomAbs, Option.none_or,
      List.find?_cons, beq_self_eq_true]
  have h6 : ((db.asuntos ++
      [({ id := db.nextAsuntoId, nombre := a1.nombre, tipo := a1.tipo,
          descripcion := a1.descripcion, coordinadora := a1.coordinadora,
          lugar := a1.lugar, created_at := t1 } : Asunto)]).filter
        (fun x => x.nombre == a1.nombre)).length = 1 := by
    simp [List.filter_append, hfila]
  exact ⟨⟨_, _, h1, rfl, rfl, h2, h3⟩, ⟨_, _, h4, rfl, rfl, h5, h6⟩, rfl⟩

/-- C7 witness: both create flows at a concrete empty store. -/
theorem C7_witness :
    (∃ created db1,
      create_persona { rut := "1-9", apellidos := "Perez", nombres := "Juan" } initDB
        = (.ok created, db1) ∧
      created.id = initDB.nextPersonaId ∧ created.rut = "1-9" ∧
      create_persona { rut := "1-9", apellidos := "Soto", nombres := "Ana" } db1
        = (.error ⟨400, "El RUT ya existe"⟩, db1) ∧
      (db1.personas.filter (fun q => q.rut == "1-9")).length = 1) ∧
    (∃ createdA db1,
      create_asunto
          { nombre := "Taller A", tipo := "taller", coordinadora := "Ana",
            lugar := "Sala 1" } 0 initDB = (.ok createdA, db1) ∧
      createdA.id = initDB.nextAsuntoId ∧ createdA.nombre = "Taller A" ∧
      create_asunto
          { nombre := "Taller A", tipo := "otra", coordinadora := "Eva",
            lugar := "Sala 2" } 1 db1
        = (.error ⟨400, "El nombre del asunto ya existe"⟩, db1) ∧
      (db1.asuntos.filter (fun x => x.nombre == "Taller A")).length = 1) ∧
    createdStatus = 201 :=
  C7_duplicate_create_conflict initDB
    { rut := "1-9", apellidos := "Perez", nombres := "Juan" }
    { rut := "1-9", apellidos := "Soto", nombres := "Ana" }
    { nombre := "Taller A", tipo := "taller", coordinadora := "Ana", lugar := "Sala 1" }
    { nombre := "Taller A", tipo := "otra", coordinadora := "Eva", lugar := "Sala 2" }
    0 1 rfl rfl rfl rfl

/-- C1: for every request to the strict attendance-create operation, a
missing persona yields 404, then a missing instancia yields 404, then an
existing (persona, instancia) pair yields 400 with the store unchanged;
otherwise exactly one new asistencia row is inserted, carrying the
payload's asistio flag (which the schema defaults to false when omitted)
and an unset fecha_marcado, and is returned with status 201. -/
theorem C1_create_asistencia_strict (db : DB) (payload : AsistenciaCreate)
    (now : Nat) :
    (db.personas.find? (fun p => p.id == payload.persona_id) = none →
      create_asistencia payload now db
        = (.error ⟨404, "Persona no encontrada"⟩, db)) ∧
    (∀ p, db.personas.find? (fun q => q.id == payload.persona_id) = some p →
      db.instancias.find? (fun i => i.id == payload.asunto_instancia_id) = none →
      create_asistencia payload now db
        = (.error ⟨404, "Instancia no encontrada"⟩, db)) ∧
    (∀ p i prev, db.personas.find? (fun q => q.id == payload.persona_id) = some p →
      db.instancias.find? (fun j => j.id == payload.asunto_instancia_id) = some i →
      db.asistencias.find? (fun a =>
        a.persona_id == payload.persona_id &&
        a.asunto_instancia_id == payload.asunto_instancia_id) = some prev →
      create_asistencia payload now db
        = (.error ⟨400, "Esta persona ya está registrada en esta instancia"⟩, db)) ∧
    (∀ p i, db.personas.find? (fun q => q.id == payload.persona_id) = some p →
      db.instancias.find? (fun j => j.id == payload.asunto_instancia_id) = some i →
      db.asistencias.find? (fun a =>
        a.persona_id == payload.persona_id &&
        a.asunto_instancia_id == payload.asunto_instancia_id) = none →
      create_asistencia payload now db =
        (.ok { id := db.nextAsistenciaId, persona_id := payload.persona_id,
               asunto_instancia_id := payload.asunto_instancia_id,
               asistio := payload.asistio, fecha_marcado := none,
               updated_at := now },
         { db with
           asistencias := db.asistencias ++
             [{ id := db.nextAsistenciaId, persona_id := payload.persona_id,
                asunto_instancia_id := payload.asunto_instancia_id,
                asistio := payload.asistio, fecha_marcado := none,
                updated_at := now }],
           nextAsistenciaId := db.nextAsistenciaId + 1 })) ∧
    (∀ pid iid,
      ({ persona_id := pid, asunto_instancia_id := iid } : AsistenciaCreate).asistio
        = false) ∧
    createdStatus = 201 := by
  refine ⟨?_, ?_, ?_, ?_, fun pid iid => rfl, rfl⟩
  · intro hp
    simp [create_asistencia, hp]
  · intro p hp hi
    simp [create_asistencia, hp, hi]
  · intro p i prev hp hi hfa
    simp [create_asistencia, hp, hi, hfa]
  · intro p i hp hi hfa
    simp [create_asistencia, hp, hi, hfa]

/-- C1 witness: the four branches of the strict create at concrete
stores. -/
theorem C1_witness :
    create_asistencia { persona_id := 1, asunto_instancia_id := 1 } 5 initDB
      = (.error ⟨404, "Persona no encontrada"⟩, initDB) ∧
    create_asistencia { persona_id := 1, asunto_instancia_id := 1 } 5 demoPersonaOnlyDB
      = (.error ⟨404, "Instancia no encontrada"⟩, demoPersonaOnlyDB) ∧
    create_asistencia { persona_id := 1, asunto_instancia_id := 1 } 5 demoDB2
      = (.error ⟨400, "Esta persona ya está registrada en esta instancia"⟩, demoDB2) ∧
    create_asistencia { persona_id := 1, asunto_instancia_id := 1 } 5 demoDB
      = (.ok { id := demoDB.nextAsistenciaId, persona_id := 1,
               asunto_instancia_id := 1, asistio := false, fecha_marcado := none,
               updated_at := 5 },
         { demoDB with
           asistencias := demoDB.asistencias ++
             [{ id := demoDB.nextAsistenciaId, persona_id := 1,
                asunto_instancia_id := 1, asistio := false, fecha_marcado := none,
                updated_at := 5 }],
           nextAsistenciaId := demoDB.nextAsistenciaId + 1 }) :=
  ⟨(C1_create_asistencia_strict initDB
      { persona_id := 1, asunto_instancia_id := 1 } 5).1 rfl,
   (C1_create_asistencia_strict demoPersonaOnlyDB
      { persona_id := 1, asunto_instancia_id := 1 } 5).2.1 demoPersona rfl rfl,
   (C1_create_asistencia_strict demoDB2
      { persona_id := 1, asunto_instancia_id := 1 } 5).2.2.1 demoPersona
      demoInstancia demoAsistencia rfl rfl rfl,
   (C1_create_asistencia_strict demoDB
      { persona_id := 1, asunto_instancia_id := 1 } 5).2.2.2.1 demoPersona
      demoInstancia rfl rfl rfl⟩

/-- C9: the mark operation on an existing asistencia row sets the asistio
flag to the payload value and stamps fecha_marcado with the current
instant in both directions (the statement quantifies over an arbitrary
payload flag, so marking present and explicitly marking absent both
stamp), also updating updated_at; a missing row yields 404 with the store
unchanged. -/
theorem C9_mark_attendance (db : DB) (aid : Nat) (u : AsistenciaUpdate)
    (now : Nat) :
    (db.asistencias.find? (fun a => a.id == aid) = none →
      update_asistencia aid u now db
        = (.error ⟨404, "Registro de asistencia no encontrado"⟩, db)) ∧
    (∀ a, db.asistencias.find? (fun x => x.id == aid) = some a →
      ∃ a2, update_asistencia aid u now db =
          (.ok a2,
           { db with
             asistencias :=
               updateFirst (fun x => x.id == aid) (fun _ => a2) db.asistencias }) ∧
        a2.asistio = u.asistio ∧ a2.fecha_marcado = some now ∧
        a2.updated_at = now ∧ a2.id = a.id ∧ a2.persona_id = a.persona_id ∧
        a2.asunto_instancia_id = a.asunto_instancia_id) := by
  constructor
  · intro hf
    simp [update_asistencia, hf]
  · intro a hf
    refine ⟨{ a with asistio := u.asistio, fecha_marcado := some now,
                     updated_at := now }, ?_, rfl, rfl, rfl, rfl, rfl, rfl⟩
    simp [update_asistencia, hf]

/-- C9 witness: marking present, explicitly marking absent, and the
missing-row branch, each at a concrete store. -/
theorem C9_witness :
    (∃ a2, update_asistencia 1 { asistio := true } 7 demoDB2 =
        (.ok a2,
         { demoDB2 with
           asistencias :=
             updateFirst (fun x => x.id == 1) (fun _ => a2) demoDB2.asistencias }) ∧
      a2.asistio = true ∧ a2.fecha_marcado = some 7 ∧ a2.updated_at = 7 ∧
      a2.id = demoAsistencia.id ∧ a2.persona_id = demoAsistencia.persona_id ∧
      a2.asunto_instancia_id = demoAsistencia.asunto_instancia_id) ∧
    (∃ a2, update_asistencia 1 { asistio := false } 8 demoDB2 =
        (.ok a2,
         { demoDB2 with
           asistencias :=
             updateFirst (fun x => x.id == 1) (fun _ => a2) demoDB2.asistencias }) ∧
      a2.asistio = false ∧ a2.fecha_marcado = some 8 ∧ a2.updated_at = 8 ∧
      a2.id = demoAsistencia.id ∧ a2.persona_id = demoAsistencia.persona_id ∧
      a2.asunto_instancia_id = demoAsistencia.asunto_instancia_id) ∧
    update_asistencia 9 { asistio := true } 7 demoDB2
      = (.error ⟨404, "Registro de asistencia no encontrado"⟩, demoDB2) :=
  ⟨(C9_mark_attendance demoDB2 1 { asistio := true } 7).2 demoAsistencia rfl,
   (C9_mark_attendance demoDB2 1 { asistio := false } 8).2 demoAsistencia rfl,
   (C9_mark_attendance demoDB2 9 { asistio := true } 7).1 rfl⟩

/-- C8: the per-asunto instancia list returns an empty list (not an
error) when the asunto exists but owns no instancias; it raises 404
exactly when the instancia result set is empty and the asunto does not
exist; and when at least one instancia matches, it succeeds without the
asunto's existence being checked. -/
theorem C8_instancias_por_asunto (db : DB) (asunto_id : Nat) :
    (∀ a, db.asuntos.find? (fun x => x.id == asunto_id) = some a →
      db.instancias.filter (fun i => i.asunto_id == asunto_id) = [] →
      get_instancias_por_asunto asunto_id db = .ok []) ∧
    (∀ e, get_instancias_por_asunto asunto_id db = .error e ↔
      (db.instancias.filter (fun i => i.asunto_id == asunto_id) = [] ∧
       db.asuntos.find? (fun x => x.id == asunto_id) = none ∧
       e = ⟨404, "Asunto no encontrado"⟩)) ∧
    (db.instancias.filter (fun i => i.asunto_id == asunto_id) ≠ [] →
      get_instancias_por_asunto asunto_id db =
        .ok ((db.instancias.filter (fun i => i.asunto_id == asunto_id)).map
          (fun i => instanciaDetail i db))) := by
  refine ⟨?_, ?_, ?_⟩
  · intro a ha hfil
    simp [get_instancias_por_asunto, hfil, ha]
  · intro e
    by_cases hfil : db.instancias.filter (fun i => i.asunto_id == asunto_id) = []
    · cases ha : db.asuntos.find? (fun x => x.id == asunto_id) with
      | none =>
        have hval : get_instancias_por_asunto asunto_id db
            = .error ⟨404, "Asunto no encontrado"⟩ := by
          simp [get_instancias_por_asunto, hfil, ha]
        rw [hval]
        constructor
        · intro h
          injection h with h
          exact ⟨hfil, rfl, h.symm⟩
        · rintro ⟨-, -, rfl⟩
          rfl
      | some a =>
        simp [get_instancias_por_asunto, hfil, ha]
    · simp [get_instancias_por_asunto, hfil]
  · intro hfil
    simp [get_instancias_por_asunto, hfil]

/-- C8 witness: empty list for an asunto without instancias, 404 for a
missing asunto, and success with one instancia. -/
theorem C8_witness :
    get_instancias_por_asunto 1 demoAsuntoOnlyDB = .ok [] ∧
    get_instancias_por_asunto 1 initDB = .error ⟨404, "Asunto no encontrado"⟩ ∧
    get_instancias_por_asunto 1 demoDB2 =
      .ok ((demoDB2.instancias.filter (fun i => i.asunto_id == 1)).map
        (fun i => instanciaDetail i demoDB2)) :=
  ⟨(C8_instancias_por_asunto demoAsuntoOnlyDB 1).1 demoAsunto rfl rfl,
   ((C8_instancias_por_asunto initDB 1).2.1 ⟨404, "Asunto no encontrado"⟩).mpr
     ⟨rfl, rfl, rfl⟩,
   (C8_instancias_por_asunto demoDB2 1).2.2 (by simp [demoDB2, demoInstancia])⟩

/-- C4: every instancia returned by the single get or the per-asunto
list carries registrados equal to the number of asistencia rows
referencing it and presentes equal to the number of such rows with
asistio = true, both recomputed from the current store; and an instancia
freshly created in any reachable store has both counts zero because no
asistencia row can reference its newly assigned id. -/
theorem C4_live_counts (db : DB) (ops : List Op)
    (payload : AsuntoInstanciaCreate) (cnow : Nat) :
    (∀ iid i, db.instancias.find? (fun x => x.id == iid) = some i →
      get_instancia iid db =
        .ok { instancia := i,
              registrados := (db.asistencias.filter
                (fun a => a.asunto_instancia_id == i.id)).length,
              presentes := (db.asistencias.filter
                (fun a => a.asunto_instancia_id == i.id && a.asistio)).length }) ∧
    (∀ aid ds, get_instancias_por_asunto aid db = .ok ds →
      ∀ d ∈ ds,
        d.registrados = (db.asistencias.filter
          (fun a => a.asunto_instancia_id == d.instancia.id)).length ∧
        d.presentes = (db.asistencias.filter
          (fun a => a.asunto_instancia_id == d.instancia.id && a.asistio)).length) ∧
    (∀ inst db2,
      create_instancia payload cnow (execList ops initDB) = (.ok inst, db2) →
      get_instancia inst.id db2
        = .ok { instancia := inst, registrados := 0, presentes := 0 }) := by
  refine ⟨?_, ?_, ?_⟩
  · intro iid i hf
    simp [get_instancia, hf, instanciaDetail, countRegistrados, countPresentes]
  · intro aid ds hds d hd
    by_cases hcond : ((db.instancias.filter
        (fun i => i.asunto_id == aid)).isEmpty &&
        (db.asuntos.find? (fun x => x.id == aid)).isNone) = true
    · simp only [get_instancias_por_asunto, if_pos hcond] at hds
      cases hds
    · simp only [get_instancias_por_asunto, if_neg hcond] at hds
      injection hds with hds
      subst hds
      rcases List.mem_map.mp hd with ⟨i, _, rfl⟩
      exact ⟨rfl, rfl⟩
  · intro inst db2 h
    obtain ⟨hpair, hbound, hrefs⟩ := Inv_execList ops initDB Inv_initDB
    cases hfa : (execList ops initDB).asuntos.find?
        (fun a => a.id == payload.asunto_id) with
    | none =>
      simp only [create_instancia, hfa, Prod.mk.injEq] at h
      exact absurd h.1 (by simp)
    | some a0 =>
      simp only [create_instancia, hfa, Prod.mk.injEq, Except.ok.injEq] at h
      obtain ⟨h1, h2⟩ := h
      subst h1
      subst h2
      have hnone : (execList ops initDB).instancias.find?
          (fun i => i.id == (execList ops initDB).nextInstanciaId) = none := by
        rw [List.find?_eq_none]
        intro x hx
        simpa using Nat.ne_of_lt (hbound x hx)
      have hfil1 : (execList ops initDB).asistencias.filter
          (fun a => a.asunto_instancia_id == (execList ops initDB).nextInstanciaId)
          = [] := by
        rw [List.filter_eq_nil_iff]
        intro x hx
        simpa using Nat.ne_of_lt (hrefs x hx)
      have hfil2 : (execList ops initDB).asistencias.filter
          (fun a => (a.asunto_instancia_id ==
            (execList ops initDB).nextInstanciaId) && a.asistio) = [] := by
        rw [List.filter_eq_nil_iff]
        intro x hx
        have := Nat.ne_of_lt (hrefs x hx)
        simp [this]
      simp [get_instancia, List.find?_append, hnone, instanciaDetail,
        countRegistrados, countPresentes, List.filter_append, hfil1, hfil2]

/-- C4 witness: counts on a store with one registered attendee, and the
fresh-instance case after creating an asunto from the empty store. -/
theorem C4_witness :
    get_instancia 1 demoDB2 =
      .ok { instancia := demoInstancia,
            registrados := (demoDB2.asistencias.filter
              (fun a => a.asunto_instancia_id == demoInstancia.id)).length,
            presentes := (demoDB2.asistencias.filter
              (fun a => a.asunto_instancia_id == demoInstancia.id && a.asistio)).length } ∧
    (∀ d ∈ (demoDB2.instancias.filter (fun i => i.asunto_id == 1)).map
        (fun i => instanciaDetail i demoDB2),
      d.registrados = (demoDB2.asistencias.filter
        (fun a => a.asunto_instancia_id == d.instancia.id)).length ∧
      d.presentes = (demoDB2.asistencias.filter
        (fun a => a.asunto_instancia_id == d.instancia.id && a.asistio)).length) ∧
    (∀ inst db2,
      create_instancia { asunto_id := 1, fecha := 20240110 } 1
        (execList [Op.createAsunto { nombre := "Taller A", tipo := "taller",
                                     coordinadora := "Ana", lugar := "Sala 1" } 0]
          initDB) = (.ok inst, db2) →
      get_instancia inst.id db2
        = .ok { instancia := inst, registrados := 0, presentes := 0 }) := by
  refine ⟨?_, ?_, ?_⟩
  · exact (C4_live_counts demoDB2 [] { asunto_id := 1, fecha := 0 } 0).1 1
      demoInstancia rfl
  · exact (C4_live_counts demoDB2 [] { asunto_id := 1, fecha := 0 } 0).2.1 1
      ((demoDB2.instancias.filter
        (fun i : AsuntoInstancia => i.asunto_id == 1)).map
        (fun i => instanciaDetail i demoDB2)) rfl
  · exact (C4_live_counts demoDB2
      [Op.createAsunto { nombre := "Taller A", tipo := "taller",
                         coordinadora := "Ana", lugar := "Sala 1" } 0]
      { asunto_id := 1, fecha := 20240110 } 1).2.2

/-- C2: the convenience registration is idempotent on an existing pair:
with a valid persona and instancia and no asistencia row for the pair,
the first call inserts exactly one row (asistio defaulting to false when
omitted) and the second call returns the informational message without
touching the store, leaving exactly one row for the pair; a payload
without persona_id yields 400; a missing instancia or persona yields
404. -/
theorem C2_registrar_idempotente (db : DB) (iid : Nat) (d : RegistrarData)
    (now1 now2 : Nat) :
    (d.persona_id = none →
      registrar_persona_instancia iid d now1 db
        = (.error ⟨400, "persona_id es requerido"⟩, db)) ∧
    (∀ pid, d.persona_id = some pid → pid ≠ 0 →
      db.instancias.find? (fun i => i.id == iid) = none →
      registrar_persona_instancia iid d now1 db
        = (.error ⟨404, "Instancia no encontrada"⟩, db)) ∧
    (∀ pid i, d.persona_id = some pid → pid ≠ 0 →
      db.instancias.find? (fun j => j.id == iid) = some i →
      db.personas.find? (fun p => p.id == pid) = none →
      registrar_persona_instancia iid d now1 db
        = (.error ⟨404, "Persona no encontrada"⟩, db)) ∧
    (∀ pid i p prev, d.persona_id = some pid → pid ≠ 0 →
      db.instancias.find? (fun j => j.id == iid) = some i →
      db.personas.find? (fun q => q.id == pid) = some p →
      db.asistencias.find? (fun a =>
        a.persona_id == pid && a.asunto_instancia_id == iid) = some prev →
      registrar_persona_instancia iid d now1 db
        = (.ok (.message "Persona ya está registrada"), db)) ∧
    (∀ pid i p, d.persona_id = some pid → pid ≠ 0 →
      db.instancias.find? (fun j => j.id == iid) = some i →
      db.personas.find? (fun q => q.id == pid) = some p →
      db.asistencias.find? (fun a =>
        a.persona_id == pid && a.asunto_instancia_id == iid) = none →
      registrar_persona_instancia iid d now1 db
        = (.ok (.created db.nextAsistenciaId pid (d.asistio.getD false)),
           { db with
             asistencias := db.asistencias ++
               [{ id := db.nextAsistenciaId, persona_id := pid,
                  asunto_instancia_id := iid, asistio := d.asistio.getD false,
                  fecha_marcado := none, updated_at := now1 }],
             nextAsistenciaId := db.nextAsistenciaId + 1 }) ∧
      registrar_persona_instancia iid d now2
          { db with
            asistencias := db.asistencias ++
              [{ id := db.nextAsistenciaId, persona_id := pid,
                 asunto_instancia_id := iid, asistio := d.asistio.getD false,
                 fecha_marcado := none, updated_at := now1 }],
            nextAsistenciaId := db.nextAsistenciaId + 1 }
        = (.ok (.message "Persona ya está registrada"),
           { db with
             asistencias := db.asistencias ++
               [{ id := db.nextAsistenciaId, persona_id := pid,
                  asunto_instancia_id := iid, asistio := d.asistio.getD false,
                  fecha_marcado := none, updated_at := now1 }],
             nextAsistenciaId := db.nextAsistenciaId + 1 }) ∧
      ((db.asistencias ++
        [({ id := db.nextAsistenciaId, persona_id := pid,
            asunto_instancia_id := iid, asistio := d.asistio.getD false,
            fecha_marcado := none, updated_at := now1 } : Asistencia)]).filter
          (fun a => a.persona_id == pid && a.asunto_instancia_id == iid)).length
        = 1 ∧
      (d.asistio = none → d.asistio.getD false = false)) := by
  refine ⟨?_, ?_, ?_, ?_, ?_⟩
  · intro hd
    simp [registrar_persona_instancia, hd]
  · intro pid hd hpid hfi
    simp [registrar_persona_instancia, hd, hpid, hfi]
  · intro pid i hd hpid hfi hfp
    simp [registrar_persona_instancia, hd, hpid, hfi, hfp]
  · intro pid i p prev hd hpid hfi hfp hfa
    simp [registrar_persona_instancia, hd, hpid, hfi, hfp, hfa]
  · intro pid i p hd hpid hfi hfp hfa
    have hfilnil : db.asistencias.filter (fun a =>
        a.persona_id == pid && a.asunto_instancia_id == iid) = [] := by
      rw [List.filter_eq_nil_iff]
      exact fun x hx => List.find?_eq_none.mp hfa x hx
    refine ⟨?_, ?_, ?_, fun h => by rw [h]; rfl⟩
    · simp [registrar_persona_instancia, hd, hpid, hfi, hfp, hfa]
    · simp [registrar_persona_instancia, hd, hpid, hfi, hfp,
        List.find?_append, hfa]
    · simp [List.filter_append, hfilnil]

/-- C2 witness: the five branches of the convenience registration at
concrete stores, including the idempotent duplicate call. -/
theorem C2_witness :
    registrar_persona_instancia 1 {} 3 demoDB
      = (.error ⟨400, "persona_id es requerido"⟩, demoDB) ∧
    registrar_persona_instancia 1 { persona_id := some 1 } 3 demoPersonaOnlyDB
      = (.error ⟨404, "Instancia no encontrada"⟩, demoPersonaOnlyDB) ∧
    registrar_persona_instancia 1 { persona_id := some 5 } 3 demoDB
      = (.error ⟨404, "Persona no encontrada"⟩, demoDB) ∧
    registrar_persona_instancia 1 { persona_id := some 1 } 3 demoDB2
      = (.ok (.message "Persona ya está registrada"), demoDB2) ∧
    (registrar_persona_instancia 1 { persona_id := some 1 } 3 demoDB
      = (.ok (.created demoDB.nextAsistenciaId 1 false),
         { demoDB with
           asistencias := demoDB.asistencias ++
             [{ id := demoDB.nextAsistenciaId, persona_id := 1,
                asunto_instancia_id := 1, asistio := false,
                fecha_marcado := none, updated_at := 3 }],
           nextAsistenciaId := demoDB.nextAsistenciaId + 1 }) ∧
     registrar_persona_instancia 1 { persona_id := some 1 } 4
        { demoDB with
          asistencias := demoDB.asistencias ++
            [{ id := demoDB.nextAsistenciaId, persona_id := 1,
               asunto_instancia_id := 1, asistio := false,
               fecha_marcado := none, updated_at := 3 }],
          nextAsistenciaId := demoDB.nextAsistenciaId + 1 }
      = (.ok (.message "Persona ya está registrada"),
         { demoDB with
           asistencias := demoDB.asistencias ++
             [{ id := demoDB.nextAsistenciaId, persona_id := 1,
                asunto_instancia_id := 1, asistio := false,
                fecha_marcado := none, updated_at := 3 }],
           nextAsistenciaId := demoDB.nextAsistenciaId + 1 }) ∧
     ((demoDB.asistencias ++
       [({ id := demoDB.nextAsistenciaId, persona_id := 1,
           asunto_instancia_id := 1, asistio := false,
           fecha_marcado := none, updated_at := 3 } : Asistencia)]).filter
         (fun a => a.persona_id == 1 && a.asunto_instancia_id == 1)).length
       = 1 ∧
     (({ persona_id := some 1 } : RegistrarData).asistio = none →
       ({ persona_id := some 1 } : RegistrarData).asistio.getD false = false)) :=
  ⟨(C2_registrar_idempotente demoDB 1 {} 3 0).1 rfl,
   (C2_registrar_idempotente demoPersonaOnlyDB 1 { persona_id := some 1 } 3 0).2.1
     1 rfl (by decide) rfl,
   (C2_registrar_idempotente demoDB 1 { persona_id := some 5 } 3 0).2.2.1
     5 demoInstancia rfl (by decide) rfl rfl,
   (C2_registrar_idempotente demoDB2 1 { persona_id := some 1 } 3 0).2.2.2.1
     1 demoInstancia demoPersona demoAsistencia rfl (by decide) rfl rfl rfl,
   (C2_registrar_idempotente demoDB 1 { persona_id := some 1 } 3 4).2.2.2.2
     1 demoInstancia demoPersona rfl (by decide) rfl rfl rfl⟩

/-- C6: a partial update of an existing persona, asunto or instancia
applies exactly the payload fields that are present (each result field is
the payload value when set, the prior stored value when unset, stated via
getD), never changes the identifier, touches no other row and no other
table, and a missing entity yields 404 with the store unchanged. -/
theorem C6_update_semantics (db : DB) :
    (∀ pid u, db.personas.find? (fun p => p.id == pid) = none →
      update_persona pid u db = (.error ⟨404, "Persona no encontrada"⟩, db)) ∧
    (∀ pid u p, db.personas.find? (fun q => q.id == pid) = some p →
      ∃ p2 db2, update_persona pid u db = (.ok p2, db2) ∧
        p2.id = p.id ∧
        p2.rut = u.rut.getD p.rut ∧
        p2.apellidos = u.apellidos.getD p.apellidos ∧
        p2.nombres = u.nombres.getD p.nombres ∧
        db2.personas =
          updateFirst (fun q => q.id == pid) (fun _ => p2) db.personas ∧
        db2.personas.length = db.personas.length ∧
        (∀ q ∈ db.personas, (q.id == pid) = false → q ∈ db2.personas) ∧
        db2.asuntos = db.asuntos ∧ db2.instancias = db.instancias ∧
        db2.asistencias = db.asistencias) ∧
    (∀ aid u, db.asuntos.find? (fun a => a.id == aid) = none →
      update_asunto aid u db = (.error ⟨404, "Asunto no encontrado"⟩, db)) ∧
    (∀ aid u a, db.asuntos.find? (fun x => x.id == aid) = some a →
      ∃ a2 db2, update_asunto aid u db = (.ok a2, db2) ∧
        a2.id = a.id ∧ a2.created_at = a.created_at ∧
        a2.nombre = u.nombre.getD a.nombre ∧
        a2.tipo = u.tipo.getD a.tipo ∧
        a2.descripcion = u.descripcion.getD a.descripcion ∧
        a2.coordinadora = u.coordinadora.getD a.coordinadora ∧
        a2.lugar = u.lugar.getD a.lugar ∧
        db2.asuntos =
          updateFirst (fun x => x.id == aid) (fun _ => a2) db.asuntos ∧
        db2.asuntos.length = db.asuntos.length ∧
        (∀ x ∈ db.asuntos, (x.id == aid) = false → x ∈ db2.asuntos) ∧
        db2.personas = db.personas ∧ db2.instancias = db.instancias ∧
        db2.asistencias = db.asistencias) ∧
    (∀ iid u, db.instancias.find? (fun i => i.id == iid) = none →
      update_instancia iid u db
        = (.error ⟨404, "Instancia no encontrada"⟩, db)) ∧
    (∀ iid u i, db.instancias.find? (fun x => x.id == iid) = some i →
      ∃ i2 db2, update_instancia iid u db = (.ok i2, db2) ∧
        i2.id = i.id ∧ i2.asunto_id = i.asunto_id ∧
        i2.created_at = i.created_at ∧
        i2.fecha = u.fecha.getD i.fecha ∧
        i2.lugar = u.lugar.getD i.lugar ∧
        i2.coordinadora = u.coordinadora.getD i.coordinadora ∧
        i2.observaciones = u.observaciones.getD i.observaciones ∧
        db2.instancias =
          updateFirst (fun x => x.id == iid) (fun _ => i2) db.instancias ∧
        db2.instancias.length = db.instancias.length ∧
        (∀ x ∈ db.instancias, (x.id == iid) = false → x ∈ db2.instancias) ∧
        db2.personas = db.personas ∧ db2.asuntos = db.asuntos ∧
        db2.asistencias = db.asistencias) := by
  refine ⟨?_, ?_, ?_, ?_, ?_, ?_⟩
  · intro pid u hf
    simp [update_persona, hf]
  · intro pid u p hf
    refine ⟨{ p with rut := u.rut.getD p.rut,
                     apellidos := u.apellidos.getD p.apellidos,
                     nombres := u.nombres.getD p.nombres },
      { db with
        personas := updateFirst (fun q => q.id == pid)
          (fun _ => { p with rut := u.rut.getD p.rut,
                             apellidos := u.apellidos.getD p.apellidos,
                             nombres := u.nombres.getD p.nombres })
          db.personas },
      by simp [update_persona, hf], rfl, rfl, rfl, rfl, rfl,
      length_updateFirst _ _ _, ?_, rfl, rfl, rfl⟩
    exact fun q hq hnq => mem_updateFirst_of_not_pred hq hnq
  · intro aid u hf
    simp [update_asunto, hf]
  · intro aid u a hf
    refine ⟨{ a with nombre := u.nombre.getD a.nombre,
                     tipo := u.tipo.getD a.tipo,
                     descripcion := u.descripcion.getD a.descripcion,
                     coordinadora := u.coordinadora.getD a.coordinadora,
                     lugar := u.lugar.getD a.lugar },
      { db with
        asuntos := updateFirst (fun x => x.id == aid)
          (fun _ => { a with nombre := u.nombre.getD a.nombre,
                             tipo := u.tipo.getD a.tipo,
                             descripcion := u.descripcion.getD a.descripcion,
                             coordinadora := u.coordinadora.getD a.coordinadora,
                             lugar := u.lugar.getD a.lugar })
          db.asuntos },
      by simp [update_asunto, hf], rfl, rfl, rfl, rfl, rfl, rfl, rfl, rfl,
      length_updateFirst _ _ _, ?_, rfl, rfl, rfl⟩
    exact fun x hx hnx => mem_updateFirst_of_not_pred hx hnx
  · intro iid u hf
    simp [update_instancia, hf]
  · intro iid u i hf
    refine ⟨{ i with fecha := u.fecha.getD i.fecha,
                     lugar := u.lugar.getD i.lugar,
                     coordinadora := u.coordinadora.getD i.coordinadora,
                     observaciones := u.observaciones.getD i.observaciones },
      { db with
        instancias := updateFirst (fun x => x.id == iid)
          (fun _ => { i with fecha := u.fecha.getD i.fecha,
                             lugar := u.lugar.getD i.lugar,
                             coordinadora := u.coordinadora.getD i.coordinadora,
                             observaciones := u.observaciones.getD i.observaciones })
          db.instancias },
      by simp [update_instancia, hf], rfl, rfl, rfl, rfl, rfl, rfl, rfl, rfl,
      length_updateFirst _ _ _, ?_, rfl, rfl, rfl⟩
    exact fun x hx hnx => mem_updateFirst_of_not_pred hx hnx

/-- C6 witness: a mixed present/absent payload on each of the three
entities at a concrete store, plus one missing-entity branch. -/
theorem C6_witness :
    (∃ p2 db2, update_persona 1 { rut := some "2-7" } demoDB = (.ok p2, db2) ∧
      p2.id = demoPersona.id ∧
      p2.rut = (some "2-7").getD demoPersona.rut ∧
      p2.apellidos = (none : Option String).getD demoPersona.apellidos ∧
      p2.nombres = (none : Option String).getD demoPersona.nombres ∧
      db2.personas =
        updateFirst (fun q => q.id == 1) (fun _ => p2) demoDB.personas ∧
      db2.personas.length = demoDB.personas.length ∧
      (∀ q ∈ demoDB.personas, (q.id == 1) = false → q ∈ db2.personas) ∧
      db2.asuntos = demoDB.asuntos ∧ db2.instancias = demoDB.instancias ∧
      db2.asistencias = demoDB.asistencias) ∧
    (∃ a2 db2, update_asunto 1 { lugar := some "Sala 9" } demoDB
        = (.ok a2, db2) ∧
      a2.id = demoAsunto.id ∧ a2.created_at = demoAsunto.created_at ∧
      a2.nombre = (none : Option String).getD demoAsunto.nombre ∧
      a2.tipo = (none : Option String).getD demoAsunto.tipo ∧
      a2.descripcion =
        (none : Option (Option String)).getD demoAsunto.descripcion ∧
      a2.coordinadora = (none : Option String).getD demoAsunto.coordinadora ∧
      a2.lugar = (some "Sala 9").getD demoAsunto.lugar ∧
      db2.asuntos =
        updateFirst (fun x => x.id == 1) (fun _ => a2) demoDB.asuntos ∧
      db2.asuntos.length = demoDB.asuntos.length ∧
      (∀ x ∈ demoDB.asuntos, (x.id == 1) = false → x ∈ db2.asuntos) ∧
      db2.personas = demoDB.personas ∧ db2.instancias = demoDB.instancias ∧
      db2.asistencias = demoDB.asistencias) ∧
    (∃ i2 db2, update_instancia 1 { coordinadora := some (some "Eva") } demoDB
        = (.ok i2, db2) ∧
      i2.id = demoInstancia.id ∧ i2.asunto_id = demoInstancia.asunto_id ∧
      i2.created_at = demoInstancia.created_at ∧
      i2.fecha = (none : Option Int).getD demoInstancia.fecha ∧
      i2.lugar = (none : Option (Option String)).getD demoInstancia.lugar ∧
      i2.coordinadora = (some (some "Eva")).getD demoInstancia.coordinadora ∧
      i2.observaciones =
        (none : Option (Option String)).getD demoInstancia.observaciones ∧
      db2.instancias =
        updateFirst (fun x => x.id == 1) (fun _ => i2) demoDB.instancias ∧
      db2.instancias.length = demoDB.instancias.length ∧
      (∀ x ∈ demoDB.instancias, (x.id == 1) = false → x ∈ db2.instancias) ∧
      db2.personas = demoDB.personas ∧ db2.asuntos = demoDB.asuntos ∧
      db2.asistencias = demoDB.asistencias) ∧
    update_persona 9 { rut := some "2-7" } demoDB
      = (.error ⟨404, "Persona no encontrada"⟩, demoDB) :=
  ⟨(C6_update_semantics demoDB).2.1 1 { rut := some "2-7" } demoPersona rfl,
   (C6_update_semantics demoDB).2.2.2.1 1 { lugar := some "Sala 9" } demoAsunto rfl,
   (C6_update_semantics demoDB).2.2.2.2.2 1 { coordinadora := some (some "Eva") }
     demoInstancia rfl,
   (C6_update_semantics demoDB).1 9 { rut := some "2-7" } rfl⟩

/-- Characterization of the joined triples of the history endpoint. -/
theorem joinAsistencia_mem {db : DB} {pid : Nat}
    {r : Asistencia × AsuntoInstancia × Asunto} :
    r ∈ joinAsistencia db pid ↔
      r.1 ∈ db.asistencias ∧ r.1.persona_id = pid ∧
      db.instancias.find? (fun j => j.id == r.1.asunto_instancia_id) = some r.2.1 ∧
      db.asuntos.find? (fun t => t.id == r.2.1.asunto_id) = some r.2.2 := by
  obtain ⟨a, i, s⟩ := r
  simp only [joinAsistencia, List.mem_filterMap]
  constructor
  · rintro ⟨x, hx, hfx⟩
    split at hfx
    · rename_i hp
      split at hfx
      · simp at hfx
      · rename_i i2 hfi
        split at hfx
        · simp at hfx
        · rename_i s2 hfs
          simp only [Option.some.injEq, Prod.mk.injEq] at hfx
          obtain ⟨rfl, rfl, rfl⟩ := hfx
          exact ⟨hx, by simpa using hp, hfi, hfs⟩
    · simp at hfx
  · rintro ⟨ha, hpid, hfi, hfs⟩
    refine ⟨a, ha, ?_⟩
    simp only [hpid, beq_self_eq_true, if_true, hfi, hfs]

/-- The history endpoint on an existing persona returns the sorted join. -/
theorem get_asistencia_por_persona_ok {db : DB} {pid : Nat} {p : Persona}
    (hp : db.personas.find? (fun q => q.id == pid) = some p) :
    get_asistencia_por_persona pid db =
      .ok (((joinAsistencia db pid).insertionSort fechaGe).map
        (fun r => historiaRow r.1 r.2.1 r.2.2)) := by
  simp only [get_asistencia_por_persona, hp]

/-- Every returned history row comes from one asistencia of the persona
joined with its instancia and asunto, and is shaped by historiaRow. -/
theorem historia_mem_spec {db : DB} {pid : Nat} {rows : List HistoriaRow}
    (h : get_asistencia_por_persona pid db = .ok rows) :
    ∀ r ∈ rows, ∃ a i s,
      a ∈ db.asistencias ∧ a.persona_id = pid ∧
      db.instancias.find? (fun j => j.id == a.asunto_instancia_id) = some i ∧
      db.asuntos.find? (fun t => t.id == i.asunto_id) = some s ∧
      r = historiaRow a i s := by
  cases hp : db.personas.find? (fun q => q.id == pid) with
  | none =>
    simp only [get_asistencia_por_persona, hp] at h
    cases h
  | some p =>
    simp only [get_asistencia_por_persona, hp, Except.ok.injEq] at h
    subst h
    intro r hr
    rcases List.mem_map.mp hr with ⟨x, hxsort, rfl⟩
    have hxjoin : x ∈ joinAsistencia db pid :=
      (List.perm_insertionSort fechaGe _).mem_iff.mp hxsort
    obtain ⟨ha, hpid2, hfi, hfs⟩ := joinAsistencia_mem.mp hxjoin
    exact ⟨x.1, x.2.1, x.2.2, ha, hpid2, hfi, hfs, rfl⟩

/-- The returned history rows are pairwise ordered by date descending. -/
theorem historia_sorted {db : DB} {pid : Nat} {rows : List HistoriaRow}
    (h : get_asistencia_por_persona pid db = .ok rows) :
    rows.Pairwise (fun r s => s.fecha ≤ r.fecha) := by
  cases hp : db.personas.find? (fun q => q.id == pid) with
  | none =>
    simp only [get_asistencia_por_persona, hp] at h
    cases h
  | some p =>
    simp only [get_asistencia_por_persona, hp, Except.ok.injEq] at h
    subst h
    exact List.Pairwise.map _ (fun a b hab => hab)
      (List.sorted_insertionSort fechaGe (joinAsistencia db pid))

/-- C5 counterexample: an instancia whose lugar and coordinadora
overrides are present but stored as the empty string; the store is
exhibited as reachable from the empty store by API requests.  The claim as
stated says a present override is reported, so the history row should
carry the empty strings; the code uses Python `or` and reports the
asunto's "Sala 1" and "Ana" instead. -/
theorem C5_counterexample :
    execList
      [Op.createAsunto { nombre := "Taller A", tipo := "taller",
                         coordinadora := "Ana", lugar := "Sala 1" } 0,
       Op.createInstancia { asunto_id := 1, fecha := 20240110,
                            lugar := some "", coordinadora := some "" } 0,
       Op.createPersona { rut := "1-9", apellidos := "Perez", nombres := "Juan" },
       Op.registrar 1 { persona_id := some 1 } 0] initDB = emptyOverrideDB ∧
    emptyOverrideInstancia.lugar = some "" ∧
    emptyOverrideInstancia.coordinadora = some "" ∧
    demoAsunto.lugar = "Sala 1" ∧ demoAsunto.coordinadora = "Ana" ∧
    get_asistencia_por_persona 1 emptyOverrideDB =
      .ok [{ id := 1, asunto := "Taller A", fecha := 20240110, asistio := false,
             lugar := "Sala 1", coordinadora := "Ana" }] ∧
    ¬ ("Sala 1" = "") ∧ ¬ ("Ana" = "") :=
  ⟨rfl, rfl, rfl, rfl, rfl, rfl, by decide, by decide⟩

/-- C5 (amended): for an existing persona the history endpoint returns
one row per asistencia of that persona joined through instancia and
asunto, ordered by instancia date descending; each row's lugar is the
instancia's override when that override is present AND non-empty and
otherwise the asunto's lugar, and likewise for coordinadora; a missing
persona yields 404. -/
theorem C5_history_correct (db : DB) (pid : Nat) :
    (db.personas.find? (fun q => q.id == pid) = none →
      get_asistencia_por_persona pid db
        = .error ⟨404, "Persona no encontrada"⟩) ∧
    (∀ p, db.personas.find? (fun q => q.id == pid) = some p →
      ∃ rows, get_asistencia_por_persona pid db = .ok rows ∧
        rows.Pairwise (fun r s => s.fecha ≤ r.fecha) ∧
        rows.Perm ((joinAsistencia db pid).map
          (fun r => historiaRow r.1 r.2.1 r.2.2)) ∧
        ∀ r ∈ rows, ∃ a i s,
          a ∈ db.asistencias ∧ a.persona_id = pid ∧
          db.instancias.find? (fun j => j.id == a.asunto_instancia_id) = some i ∧
          db.asuntos.find? (fun t => t.id == i.asunto_id) = some s ∧
          r.id = a.id ∧ r.asunto = s.nombre ∧ r.fecha = i.fecha ∧
          r.asistio = a.asistio ∧
          (∀ v, i.lugar = some v → ¬ (v = "") → r.lugar = v) ∧
          ((i.lugar = none ∨ i.lugar = some "") → r.lugar = s.lugar) ∧
          (∀ v, i.coordinadora = some v → ¬ (v = "") → r.coordinadora = v) ∧
          ((i.coordinadora = none ∨ i.coordinadora = some "") →
            r.coordinadora = s.coordinadora)) := by
  constructor
  · intro hp
    simp [get_asistencia_por_persona, hp]
  · intro p hp
    refine ⟨_, get_asistencia_por_persona_ok hp,
      historia_sorted (get_asistencia_por_persona_ok hp),
      (List.perm_insertionSort fechaGe _).map _, ?_⟩
    intro r hr
    obtain ⟨a, i, s, ha, hpid2, hfi, hfs, rfl⟩ :=
      historia_mem_spec (get_asistencia_por_persona_ok hp) r hr
    refine ⟨a, i, s, ha, hpid2, hfi, hfs, rfl, rfl, rfl, rfl, ?_, ?_, ?_, ?_⟩
    · intro v hv hne
      show pyOr i.lugar s.lugar = v
      rw [hv, pyOr_some hne]
    · intro hv
      show pyOr i.lugar s.lugar = s.lugar
      exact pyOr_falsy hv
    · intro v hv hne
      show pyOr i.coordinadora s.coordinadora = v
      rw [hv, pyOr_some hne]
    · intro hv
      show pyOr i.coordinadora s.coordinadora = s.coordinadora
      exact pyOr_falsy hv

/-- C5 witness: the amended history statement at a concrete store with
one asistencia, plus the missing-persona branch. -/
theorem C5_witness :
    get_asistencia_por_persona 9 demoDB2
      = .error ⟨404, "Persona no encontrada"⟩ ∧
    (∃ rows, get_asistencia_por_persona 1 demoDB2 = .ok rows ∧
      rows.Pairwise (fun r s => s.fecha ≤ r.fecha) ∧
      rows.Perm ((joinAsistencia demoDB2 1).map
        (fun r => historiaRow r.1 r.2.1 r.2.2)) ∧
      ∀ r ∈ rows, ∃ a i s,
        a ∈ demoDB2.asistencias ∧ a.persona_id = 1 ∧
        demoDB2.instancias.find? (fun j => j.id == a.asunto_instancia_id)
          = some i ∧
        demoDB2.asuntos.find? (fun t => t.id == i.asunto_id) = some s ∧
        r.id = a.id ∧ r.asunto = s.nombre ∧ r.fecha = i.fecha ∧
        r.asistio = a.asistio ∧
        (∀ v, i.lugar = some v → ¬ (v = "") → r.lugar = v) ∧
        ((i.lugar = none ∨ i.lugar = some "") → r.lugar = s.lugar) ∧
        (∀ v, i.coordinadora = some v → ¬ (v = "") → r.coordinadora = v) ∧
        ((i.coordinadora = none ∨ i.coordinadora = some "") →
          r.coordinadora = s.coordinadora)) :=
  ⟨(C5_history_correct demoDB2 9).1 rfl,
   (C5_history_correct demoDB2 1).2 demoPersona rfl⟩

/-- C10: for every history row the fallback to the asunto's lugar and
coordinadora triggers on any falsy override, the empty string included:
whenever the joined instancia's override is none or some "", the returned
row carries the asunto's value. -/
theorem C10_falsy_override_fallback (db : DB) (pid : Nat)
    (rows : List HistoriaRow)
    (h : get_asistencia_por_persona pid db = .ok rows) :
    ∀ r ∈ rows, ∃ a i s,
      a ∈ db.asistencias ∧ a.persona_id = pid ∧
      db.instancias.find? (fun j => j.id == a.asunto_instancia_id) = some i ∧
      db.asuntos.find? (fun t => t.id == i.asunto_id) = some s ∧
      ((i.lugar = none ∨ i.lugar = some "") → r.lugar = s.lugar) ∧
      ((i.coordinadora = none ∨ i.coordinadora = some "") →
        r.coordinadora = s.coordinadora) := by
  intro r hr
  obtain ⟨a, i, s, ha, hpid2, hfi, hfs, rfl⟩ := historia_mem_spec h r hr
  exact ⟨a, i, s, ha, hpid2, hfi, hfs,
    fun hv => pyOr_falsy hv, fun hv => pyOr_falsy hv⟩

/-- C10 witness: at the store whose single instancia stores empty-string
overrides, the single history row is reported with the asunto's lugar and
coordinadora. -/
theorem C10_witness :
    ∃ a i s,
      a ∈ emptyOverrideDB.asistencias ∧ a.persona_id = 1 ∧
      emptyOverrideDB.instancias.find? (fun j => j.id == a.asunto_instancia_id)
        = some i ∧
      emptyOverrideDB.asuntos.find? (fun t => t.id == i.asunto_id) = some s ∧
      ((i.lugar = none ∨ i.lugar = some "") →
        ({ id := 1, asunto := "Taller A", fecha := 20240110, asistio := false,
           lugar := "Sala 1", coordinadora := "Ana" } : HistoriaRow).lugar
          = s.lugar) ∧
      ((i.coordinadora = none ∨ i.coordinadora = some "") →
        ({ id := 1, asunto := "Taller A", fecha := 20240110, asistio := false,
           lugar := "Sala 1", coordinadora := "Ana" } : HistoriaRow).coordinadora
          = s.coordinadora) :=
  C10_falsy_override_fallback emptyOverrideDB 1
    [{ id := 1, asunto := "Taller A", fecha := 20240110, asistio := false,
       lugar := "Sala 1", coordinadora := "Ana" }]
    rfl
    { id := 1, asunto := "Taller A", fecha := 20240110, asistio := false,
      lugar := "Sala 1", coordinadora := "Ana" }
    (List.mem_singleton.mpr rfl)

end Mgmt
